import Mathlib

/-!
Shallow embedding of the irmago keyshare server core (package `keysharecore`,
src/unnamed/part_000) and keyshare HTTP server (package `keyshareserver`,
src/unnamed/part_001), together with theorems settling the frozen claims
about them.

Modelling conventions:
* Go machine integers that never overflow in the verified paths are `Nat`
  (`uint32` key IDs, `uint64` commit IDs) or `Int` (`int` tries/wait values,
  which the DB may in principle return negative).
* Pointers to opaque foreign objects (`*rsa.PrivateKey`, `ConsistentStorage`,
  `*gabikeys.PublicKey`, `*gabi.ProofPCommitment`, user core data blobs) are
  modelled as opaque `Nat` identifiers: no verified claim inspects their
  contents, only their identity and flow.
* Go maps are modelled as functions into `Option`.
* Fallible collaborator calls (DB, core crypto) are inputs of the handler
  functions: each handler takes an environment record holding the outcome of
  every external call it may make, and returns its result together with the
  list of external calls it performed (its trace), so that ordering and
  frame claims can be stated.
-/

/-- Go `error` values that flow through the keyshare server. The sentinel
errors (`keysharecore.ErrInvalidPin` etc.) are declared in the keysharecore
package; handlers compare errors against them by identity. The `other`
constructor covers every non-sentinel error (DB failures etc.). -/
inductive GoError
  | invalidPin
  | invalidJWT
  | invalidChallenge
  | pinTooLong
  | other (msg : String)
deriving DecidableEq, Repr

/-- `err.Error()`. The sentinel error strings are declared outside src/; no
claim depends on their exact text, only on error identity. -/
def GoError.message : GoError → String
  | .invalidPin => "invalid pin"
  | .invalidJWT => "invalid jwt"
  | .invalidChallenge => "invalid challenge"
  | .pinTooLong => "pin too long"
  | .other m => m

/-- `irma.PublicKeyIdentifier`: an issuer identifier plus key counter. -/
structure PublicKeyIdentifier where
  issuer : String
  counter : Nat
deriving DecidableEq, Repr

instance : Inhabited PublicKeyIdentifier := ⟨⟨"", 0⟩⟩

/-- Modelled from the spec: `PublicKeyIdentifier.MarshalText` lives in the
irmago root package, outside src/; the spec describes the commitment map as
keyed by the "keyID-string" form of each requested key. -/
def PublicKeyIdentifier.marshalText (k : PublicKeyIdentifier) : String :=
  k.issuer ++ "-" ++ toString k.counter

/-- `keysharecore.AESKey`, a 32-byte AES key. Its byte contents are opaque
to every verified claim. -/
structure AESKey where
  data : List Nat
deriving DecidableEq, Repr

/-- The zero value of `AESKey` (Go zero-initialises struct fields). -/
def AESKey.zero : AESKey := ⟨List.replicate 32 0⟩

/-- `keysharecore.JWTIssuerDefault`. -/
def JWTIssuerDefault : String := "keyshare_server"

/-- `keysharecore.JWTPinExpiryDefault` (seconds). -/
def JWTPinExpiryDefault : Int := 5 * 60

/-- `keysharecore.Core`. `jwtPrivateKey`, `storage` and the values of
`trustedKeys` are opaque foreign objects, modelled by `Nat` identifiers. -/
structure Core where
  decryptionKeys : Nat → Option AESKey
  decryptionKey : AESKey
  decryptionKeyID : Nat
  jwtPrivateKey : Nat
  jwtPrivateKeyID : Nat
  jwtIssuer : String
  jwtPinExpiry : Int
  storage : Nat
  trustedKeys : PublicKeyIdentifier → Option Nat

/-- `keysharecore.Configuration`. -/
structure Configuration where
  DecryptionKey : AESKey
  DecryptionKeyID : Nat
  JWTPrivateKey : Nat
  JWTPrivateKeyID : Nat
  JWTIssuer : String
  JWTPinExpiry : Int
  Storage : Nat

/-- `Core.setDecryptionKey`: install the AES key for encrypting new or
changed keyshare data, also registering it for decryption. -/
def setDecryptionKey (c : Core) (keyID : Nat) (key : AESKey) : Core :=
  { c with
    decryptionKeys := fun k => if k = keyID then some key else c.decryptionKeys k
    decryptionKey := key
    decryptionKeyID := keyID }

/-- `Core.setJWTPrivateKey`. -/
def setJWTPrivateKey (c : Core) (id : Nat) (key : Nat) : Core :=
  { c with jwtPrivateKey := key, jwtPrivateKeyID := id }

/-- `Core.DangerousAddDecryptionKey`: add an AES key for decryption under
`keyID`, without touching the current write key. -/
def DangerousAddDecryptionKey (c : Core) (keyID : Nat) (key : AESKey) : Core :=
  { c with
    decryptionKeys := fun k => if k = keyID then some key else c.decryptionKeys k }

/-- `Core.DangerousAddTrustedPublicKey`. -/
def DangerousAddTrustedPublicKey (c : Core) (keyID : PublicKeyIdentifier) (key : Nat) : Core :=
  { c with
    trustedKeys := fun k => if k = keyID then some key else c.trustedKeys k }

/-- `keysharecore.NewKeyshareCore`. Go zero-initialises the fields not set
in the struct literal; the two `set…` helpers then install the configured
keys, and empty/zero issuer and pin-expiry values fall back to defaults. -/
def NewKeyshareCore (conf : Configuration) : Core :=
  let c : Core :=
    { decryptionKeys := fun _ => none
      decryptionKey := AESKey.zero
      decryptionKeyID := 0
      jwtPrivateKey := 0
      jwtPrivateKeyID := 0
      jwtIssuer := ""
      jwtPinExpiry := 0
      storage := conf.Storage
      trustedKeys := fun _ => none }
  let c := setDecryptionKey c conf.DecryptionKeyID conf.DecryptionKey
  let c := setJWTPrivateKey c conf.JWTPrivateKeyID conf.JWTPrivateKey
  let c := { c with jwtIssuer := if conf.JWTIssuer = "" then JWTIssuerDefault else conf.JWTIssuer }
  { c with jwtPinExpiry := if conf.JWTPinExpiry = 0 then JWTPinExpiryDefault else conf.JWTPinExpiry }

/-- Fold a list of `(keyID, key)` pairs through `DangerousAddDecryptionKey`. -/
def addDecryptionKeys (c : Core) (l : List (Nat × AESKey)) : Core :=
  l.foldl (fun c p => DangerousAddDecryptionKey c p.1 p.2) c

/-- Kinds of keyshare server log entries (`keyshareserver.PinCheckRefused`
etc., declared next to the DB interface). -/
inductive LogKind
  | pinCheckRefused
  | pinCheckFailed
  | pinCheckBlocked
  | pinCheckSuccess
  | irmaSession
deriving DecidableEq, Repr

/-- External calls a handler can make, in the order it makes them. The
`updateUser` event carries the (opaque) core data blob the user row holds at
the moment of the call; `generateResponse` carries the commit and key ids
passed to the Core. -/
inductive Event
  | reservePincheck
  | addLog (kind : LogKind)
  | clearPincheck
  | setSeen
  | updateUser (coredata : Nat)
  | validatePin
  | changePin
  | readSessionCache
  | generateResponse (commitID : Nat) (keyID : PublicKeyIdentifier)
  | generateCommitments
deriving DecidableEq, Repr

/-- The Core cryptographic operations gated by the pincheck reservation. -/
def isCrypto : Event → Bool
  | .validatePin => true
  | .changePin => true
  | _ => false

/-- `keyshareserver.keysharePinStatus`, the `{status, message}` response
envelope of the pin endpoints. -/
structure keysharePinStatus where
  status : String
  message : String
deriving DecidableEq, Repr

/-- The error kinds of the `server` package that the keyshare handlers pass
to `server.WriteError`. -/
inductive ErrorKind
  | invalidRequest
  | internal
  | userNotRegistered
deriving DecidableEq, Repr

/-- Modelled from the spec: the HTTP status codes that `server.WriteError`
(package `server`, outside src/) attaches to each error kind; the spec's
error taxonomy gives `InvalidRequest` 400, `Internal` 500 and says only
"4xx" for `UserNotRegistered`. -/
def ErrorKind.statusCode : ErrorKind → Nat
  | .invalidRequest => 400
  | .internal => 500
  | .userNotRegistered => 403

/-- What a handler writes back: `ok v` is `server.WriteJson`/`WriteString`
of a successful value (HTTP 200), `err kind msg` is `server.WriteError`. -/
inductive HandlerResult (α : Type)
  | ok (val : α)
  | err (kind : ErrorKind) (msg : String)
deriving DecidableEq, Repr

/-- `keyshareserver.SessionData`: the session cache entry of one user. Time
is modelled in whole seconds. -/
structure SessionData where
  lastKeyID : PublicKeyIdentifier
  lastCommitID : Nat
  expiry : Nat
deriving DecidableEq, Repr

/-- `Server.clearSessions`: drop every cache entry whose expiry lies
strictly in the past (`time.Now().After(v.expiry)`). -/
def clearSessions (now : Nat) (sessions : String → Option SessionData) :
    String → Option SessionData :=
  fun u =>
    match sessions u with
    | some sd => if sd.expiry < now then none else some sd
    | none => none

/-- Environment of one `doVerifyPin` run: the outcomes of every external
call the handler may make. `reserveErr`/`allowed`/`tries`/`wait` are the
return values of `UserStore.ReservePincheck`; `jwt`/`pinErr` those of
`Core.ValidatePin`; the remaining fields are the DB bookkeeping outcomes. -/
structure VerifyEnv where
  reserveErr : Option GoError
  allowed : Bool
  tries : Int
  wait : Int
  jwt : String
  pinErr : Option GoError
  addLogErr : LogKind → Option GoError
  clearErr : Option GoError
  seenErr : Option GoError

/-- `Server.doVerifyPin` (src/unnamed/part_001:361-421), translated
line-by-line. Returns the `keysharePinStatus` result, the Go error returned
to `handleVerifyPin`, and the trace of external calls. Note that a
`ReservePincheck` error is logged and then swallowed: the code returns
`keysharePinStatus{}, nil`. -/
def doVerifyPin (env : VerifyEnv) : keysharePinStatus × Option GoError × List Event :=
  match env.reserveErr with
  | some _ => (⟨"", ""⟩, none, [.reservePincheck])
  | none =>
    if !env.allowed then
      match env.addLogErr .pinCheckRefused with
      | some e => (⟨"", ""⟩, some e, [.reservePincheck, .addLog .pinCheckRefused])
      | none =>
          (⟨"error", toString env.wait⟩, none, [.reservePincheck, .addLog .pinCheckRefused])
    else
      match env.pinErr with
      | some GoError.invalidPin =>
        match env.addLogErr .pinCheckFailed with
        | some e => (⟨"", ""⟩, some e, [.reservePincheck, .validatePin, .addLog .pinCheckFailed])
        | none =>
          if env.tries = 0 then
            match env.addLogErr .pinCheckBlocked with
            | some e =>
                (⟨"", ""⟩, some e,
                  [.reservePincheck, .validatePin, .addLog .pinCheckFailed,
                    .addLog .pinCheckBlocked])
            | none =>
                (⟨"error", toString env.wait⟩, none,
                  [.reservePincheck, .validatePin, .addLog .pinCheckFailed,
                    .addLog .pinCheckBlocked])
          else
            (⟨"failure", toString env.tries⟩, none,
              [.reservePincheck, .validatePin, .addLog .pinCheckFailed])
      | some e => (⟨"", ""⟩, some e, [.reservePincheck, .validatePin])
      | none =>
        match env.addLogErr .pinCheckSuccess with
        | some e =>
            (⟨"", ""⟩, some e,
              [.reservePincheck, .validatePin, .clearPincheck, .setSeen,
                .addLog .pinCheckSuccess])
        | none =>
            (⟨"success", env.jwt⟩, none,
              [.reservePincheck, .validatePin, .clearPincheck, .setSeen,
                .addLog .pinCheckSuccess])

/-- `Server.handleVerifyPin` (src/unnamed/part_001:326-359) after a
well-formed body and successful user lookup: a non-nil error from
`doVerifyPin` becomes an `Internal` error response, otherwise the status is
written as JSON. -/
def handleVerifyPin (env : VerifyEnv) : HandlerResult keysharePinStatus :=
  match (doVerifyPin env).2.1 with
  | some e => .err .internal e.message
  | none => .ok (doVerifyPin env).1

/-- Environment of one `doUpdatePin` run. `newBlob`/`changeErr` are the
return values of `Core.ChangePin`; `updateErr` that of
`UserStore.UpdateUser`. -/
structure UpdateEnv where
  reserveErr : Option GoError
  allowed : Bool
  tries : Int
  wait : Int
  newBlob : Nat
  changeErr : Option GoError
  clearErr : Option GoError
  updateErr : Option GoError

/-- `Server.doUpdatePin` (src/unnamed/part_001:457-496), translated
line-by-line. On `ChangePin` success the user row carries the new blob, so
the `updateUser` event records `env.newBlob`. Note that a non-pin
`ChangePin` error is logged and then swallowed: the code returns
`keysharePinStatus{}, nil`. -/
def doUpdatePin (env : UpdateEnv) : keysharePinStatus × Option GoError × List Event :=
  match env.reserveErr with
  | some e => (⟨"", ""⟩, some e, [.reservePincheck])
  | none =>
    if !env.allowed then
      (⟨"error", toString env.wait⟩, none, [.reservePincheck])
    else
      match env.changeErr with
      | some GoError.invalidPin =>
        if env.tries = 0 then
          (⟨"error", toString env.wait⟩, none, [.reservePincheck, .changePin])
        else
          (⟨"failure", toString env.tries⟩, none, [.reservePincheck, .changePin])
      | some _ => (⟨"", ""⟩, none, [.reservePincheck, .changePin])
      | none =>
        match env.updateErr with
        | some e =>
            (⟨"", ""⟩, some e,
              [.reservePincheck, .changePin, .clearPincheck, .updateUser env.newBlob])
        | none =>
            (⟨"success", ""⟩, none,
              [.reservePincheck, .changePin, .clearPincheck, .updateUser env.newBlob])

/-- `Server.handleChangePin` (src/unnamed/part_001:424-455) after a
well-formed body and successful user lookup. -/
def handleChangePin (env : UpdateEnv) : HandlerResult keysharePinStatus :=
  match (doUpdatePin env).2.1 with
  | some e => .err .internal e.message
  | none => .ok (doUpdatePin env).1

/-- Environment of one `/prove/getResponse` run after the body has parsed
to a challenge. `sessions` is the state of the session cache at lookup
time; `respString`/`respErr` are the return values of
`Core.GenerateResponse`; `addLogErr` is the outcome of
`AddLog(user, IrmaSession, nil)`. -/
structure ResponseEnv where
  username : String
  challenge : Int
  hasValidAuthorization : Bool
  sessions : String → Option SessionData
  seenErr : Option GoError
  addLogErr : Option GoError
  respString : String
  respErr : Option GoError

/-- `Server.doGenerateResponses` (src/unnamed/part_001:292-314): `SetSeen`
failures are only logged, an `AddLog` failure is returned, then
`Core.GenerateResponse` is called with the commit and key ids from the
session cache entry. -/
def doGenerateResponses (env : ResponseEnv) (commitID : Nat) (keyID : PublicKeyIdentifier) :
    String × Option GoError × List Event :=
  match env.addLogErr with
  | some e => ("", some e, [.setSeen, .addLog .irmaSession])
  | none =>
    match env.respErr with
    | some e =>
        ("", some e, [.setSeen, .addLog .irmaSession, .generateResponse commitID keyID])
    | none =>
        (env.respString, none,
          [.setSeen, .addLog .irmaSession, .generateResponse commitID keyID])

/-- `Server.handleResponse` (src/unnamed/part_001:239-290) after the body
has parsed to a challenge: the authorization check comes before the session
cache lookup, a missing cache entry is a 400, and `ErrInvalidChallenge` /
`ErrInvalidJWT` from the Core map to `InvalidRequest` while any other error
maps to `Internal`. -/
def handleResponse (env : ResponseEnv) : HandlerResult String × List Event :=
  if !env.hasValidAuthorization then
    (.err .invalidRequest "Invalid authorization", [])
  else
    match env.sessions env.username with
    | none =>
        (.err .invalidRequest "Missing previous call to getCommitments", [.readSessionCache])
    | some sd =>
      match doGenerateResponses env sd.lastCommitID sd.lastKeyID with
      | (_, some GoError.invalidChallenge, tr) =>
          (.err .invalidRequest (GoError.message .invalidChallenge), .readSessionCache :: tr)
      | (_, some GoError.invalidJWT, tr) =>
          (.err .invalidRequest (GoError.message .invalidJWT), .readSessionCache :: tr)
      | (_, some e, tr) => (.err .internal e.message, .readSessionCache :: tr)
      | (resp, none, tr) => (.ok resp, .readSessionCache :: tr)

/-- Environment of one `/prove/getCommitments` run after the body has
parsed to a key list. `commitments`/`commitID`/`coreErr` are the return
values of `Core.GenerateCommitments` (the commitments as opaque
identifiers, parallel to `keys`); `now` is the wall-clock time in seconds
at the session cache update. -/
structure CommitmentsEnv where
  username : String
  keys : List PublicKeyIdentifier
  now : Nat
  commitments : List Nat
  commitID : Nat
  coreErr : Option GoError
  sessions : String → Option SessionData

/-- The commitment map built by `generateCommitments`' loop
`for i, keyID := range keys { m[string(keyIDV)] = commitments[i] }`: later
iterations overwrite earlier ones at equal keys. The arrays are parallel
(`commitments` has one entry per requested key), so the case of a too-short
commitment list is unreachable in the program; it is modelled as stopping. -/
def buildCommitmentMap : List PublicKeyIdentifier → List Nat →
    (String → Option Nat) → (String → Option Nat)
  | [], _, m => m
  | _ :: _, [], m => m
  | k :: ks, c :: cs, m =>
      buildCommitmentMap ks cs (fun s => if s = k.marshalText then some c else m s)

/-- `Server.generateCommitments` (src/unnamed/part_001:204-236): on Core
success, reshape the parallel arrays into the keyID-string map and
overwrite the caller's session cache entry with the fresh commit id, the
first requested key, and expiry ten seconds from now. Returns the response
map, the Go error, the new session cache, and the trace. -/
def generateCommitments (env : CommitmentsEnv) :
    (String → Option Nat) × Option GoError × (String → Option SessionData) × List Event :=
  match env.coreErr with
  | some e => (fun _ => none, some e, env.sessions, [.generateCommitments])
  | none =>
    let m := buildCommitmentMap env.keys env.commitments (fun _ => none)
    let sessions' := fun u =>
      if u = env.username then
        some ⟨env.keys.headD default, env.commitID, env.now + 10⟩
      else env.sessions u
    (m, none, sessions', [.generateCommitments])

/-- `Server.handleCommitments` (src/unnamed/part_001:164-202) after the
body has parsed to a key list: an empty list is rejected with 400 before
the Core is consulted; Core sentinel errors map to `InvalidRequest`, other
errors to `Internal`. -/
def handleCommitments (env : CommitmentsEnv) :
    HandlerResult (String → Option Nat) × (String → Option SessionData) × List Event :=
  if env.keys.length = 0 then
    (.err .invalidRequest "No key specified", env.sessions, [])
  else
    match generateCommitments env with
    | (_, some GoError.invalidChallenge, sessions', tr) =>
        (.err .invalidRequest (GoError.message .invalidChallenge), sessions', tr)
    | (_, some GoError.invalidJWT, sessions', tr) =>
        (.err .invalidRequest (GoError.message .invalidJWT), sessions', tr)
    | (_, some e, sessions', tr) => (.err .internal e.message, sessions', tr)
    | (m, none, sessions', tr) => (.ok m, sessions', tr)

/-- The base64 standard-encoding alphabet (`encoding/base64.StdEncoding`). -/
def base64Alphabet : List Char :=
  "ABCDEFGHIJKLMNOPQRSTUVWXYZabcdefghijklmnopqrstuvwxyz0123456789+/".toList

/-- Character of the base64 standard alphabet at index `i < 64`. -/
def b64char (i : Nat) : Char := base64Alphabet.getD i ' '

/-- `base64.StdEncoding.Encode` on a byte list: each 3-byte group becomes 4
alphabet characters; a trailing 2-byte group becomes 3 characters plus one
padding character and a trailing 1-byte group 2 characters plus two. -/
def base64StdEncode : List Nat → List Char
  | b0 :: b1 :: b2 :: rest =>
      b64char (b0 / 4) :: b64char (b0 % 4 * 16 + b1 / 16) ::
        b64char (b1 % 16 * 4 + b2 / 64) :: b64char (b2 % 64) :: base64StdEncode rest
  | [b0, b1] =>
      [b64char (b0 / 4), b64char (b0 % 4 * 16 + b1 / 16), b64char (b1 % 16 * 4), '=']
  | [b0] => [b64char (b0 / 4), b64char (b0 % 4 * 16), '=', '=']
  | [] => []

/-- `keyshareserver.generateUsername` (src/unnamed/part_001:620-638) with
the 8 random bytes as input: base64-encode them (12 characters) and strip
every plus, slash and padding character. The three successive
`strings.ReplaceAll` deletions are one filter because deleting characters
cannot create new occurrences. -/
def generateUsername (bts : List Nat) : String :=
  String.mk ((base64StdEncode bts).filter fun c => c ≠ '+' && c ≠ '/' && c ≠ '=')

/-- Base62 characters: ASCII letters and digits. -/
def isBase62 (c : Char) : Bool :=
  ('A' ≤ c && c ≤ 'Z') || ('a' ≤ c && c ≤ 'z') || ('0' ≤ c && c ≤ '9')

/-- Every Core cryptographic operation in the trace is preceded by a
pincheck reservation. -/
def cryptoAfterReservation (tr : List Event) : Prop :=
  ∀ i : Fin tr.length, isCrypto (tr.get i) = true →
    ∃ j : Fin tr.length, j.val < i.val ∧ tr.get j = Event.reservePincheck

/-- A verify-pin environment in which the pincheck store fails. -/
def envC5verify : VerifyEnv :=
  { reserveErr := some (.other "db failure"), allowed := true, tries := 1, wait := 60,
    jwt := "", pinErr := none, addLogErr := fun _ => none, clearErr := none, seenErr := none }

/-- A change-pin environment in which `ChangePin` fails with a non-pin error. -/
def envC5change : UpdateEnv :=
  { reserveErr := none, allowed := true, tries := 1, wait := 60, newBlob := 7,
    changeErr := some (.other "crypto failure"), clearErr := none, updateErr := none }

/-- A verify-pin environment: reservation refused, all bookkeeping succeeds. -/
def envC6ok : VerifyEnv :=
  { reserveErr := none, allowed := false, tries := 1, wait := 60, jwt := "",
    pinErr := none, addLogErr := fun _ => none, clearErr := none, seenErr := none }

/-- The same environment except that every `AddLog` call fails. -/
def envC6bad : VerifyEnv :=
  { envC6ok with addLogErr := fun _ => some (.other "db failure") }

/-- A verify-pin environment on the success path, for the C1 witness. -/
def envC1 : VerifyEnv :=
  { reserveErr := none, allowed := true, tries := 2, wait := 60, jwt := "jwtA",
    pinErr := none, addLogErr := fun _ => none, clearErr := none, seenErr := none }

/-- A getResponse environment with a cached session, for the C2 witness. -/
def envC2 : ResponseEnv :=
  { username := "alice", challenge := 42, hasValidAuthorization := true,
    sessions := fun u => if u = "alice" then some ⟨⟨"irma-demo.MijnOverheid", 2⟩, 5, 100⟩ else none,
    seenErr := none, addLogErr := none, respString := "123", respErr := none }

/-- A getCommitments environment with two keys, for the C3 witness. -/
def envC3 : CommitmentsEnv :=
  { username := "alice", keys := [⟨"irma-demo.MijnOverheid", 2⟩, ⟨"pbdf.pbdf", 1⟩],
    now := 50, commitments := [11, 12], commitID := 99, coreErr := none,
    sessions := fun _ => none }

/-- A verify-pin environment with the reservation refused, for the C4 witness. -/
def envC4verify : VerifyEnv :=
  { reserveErr := none, allowed := false, tries := 2, wait := 60, jwt := "",
    pinErr := none, addLogErr := fun _ => none, clearErr := none, seenErr := none }

/-- A change-pin environment on the success path, for the C4 witness. -/
def envC4change : UpdateEnv :=
  { reserveErr := none, allowed := true, tries := 2, wait := 60, newBlob := 7,
    changeErr := none, clearErr := none, updateErr := none }

/-- A getResponse environment whose cached entry is already expired at the
observation time, for the C10 witness. -/
def envC10 : ResponseEnv :=
  { username := "alice", challenge := 42, hasValidAuthorization := true,
    sessions := fun u => if u = "alice" then some ⟨⟨"pbdf.pbdf", 3⟩, 8, 20⟩ else none,
    seenErr := none, addLogErr := none, respString := "456", respErr := none }

theorem addDecryptionKeys_writeKey (c : Core) (l : List (Nat × AESKey)) :
    (addDecryptionKeys c l).decryptionKey = c.decryptionKey ∧
    (addDecryptionKeys c l).decryptionKeyID = c.decryptionKeyID := by
  induction l generalizing c with
  | nil => exact ⟨rfl, rfl⟩
  | cons p t ih => exact ih (DangerousAddDecryptionKey c p.1 p.2)

/-- **C7.** `DangerousAddDecryptionKey(keyID, key)` updates the decryption
key ring at `keyID` (leaving all other ring entries as they were) and leaves
every other field of the `Core` unchanged — in particular the current write
key `decryptionKey` and its id `decryptionKeyID`; consequently after any
sequence of `DangerousAddDecryptionKey` calls following `setDecryptionKey`,
the current write key is still exactly the one `setDecryptionKey` installed. -/
theorem C7_dangerousAddDecryptionKey_frame (c : Core) (keyID : Nat) (key : AESKey)
    (kid : Nat) (k0 : AESKey) (l : List (Nat × AESKey)) :
    (DangerousAddDecryptionKey c keyID key).decryptionKeys =
      (fun k => if k = keyID then some key else c.decryptionKeys k) ∧
    (DangerousAddDecryptionKey c keyID key).decryptionKey = c.decryptionKey ∧
    (DangerousAddDecryptionKey c keyID key).decryptionKeyID = c.decryptionKeyID ∧
    (DangerousAddDecryptionKey c keyID key).jwtPrivateKey = c.jwtPrivateKey ∧
    (DangerousAddDecryptionKey c keyID key).jwtPrivateKeyID = c.jwtPrivateKeyID ∧
    (DangerousAddDecryptionKey c keyID key).jwtIssuer = c.jwtIssuer ∧
    (DangerousAddDecryptionKey c keyID key).jwtPinExpiry = c.jwtPinExpiry ∧
    (DangerousAddDecryptionKey c keyID key).storage = c.storage ∧
    (DangerousAddDecryptionKey c keyID key).trustedKeys = c.trustedKeys ∧
    (addDecryptionKeys (setDecryptionKey c kid k0) l).decryptionKey = k0 ∧
    (addDecryptionKeys (setDecryptionKey c kid k0) l).decryptionKeyID = kid := by
  refine ⟨rfl, rfl, rfl, rfl, rfl, rfl, rfl, rfl, rfl, ?_, ?_⟩
  · exact (addDecryptionKeys_writeKey (setDecryptionKey c kid k0) l).1
  · exact (addDecryptionKeys_writeKey (setDecryptionKey c kid k0) l).2

/-- **C8.** `NewKeyshareCore` applies the documented defaults: an empty
configured `JWTIssuer` becomes `"keyshare_server"`, a zero configured
`JWTPinExpiry` becomes `300` seconds, and all other configured values are
taken over unchanged. -/
theorem C8_newKeyshareCore_defaults (conf : Configuration) :
    (NewKeyshareCore conf).jwtIssuer =
      (if conf.JWTIssuer = "" then "keyshare_server" else conf.JWTIssuer) ∧
    (NewKeyshareCore conf).jwtPinExpiry =
      (if conf.JWTPinExpiry = 0 then 300 else conf.JWTPinExpiry) ∧
    (NewKeyshareCore conf).decryptionKey = conf.DecryptionKey ∧
    (NewKeyshareCore conf).decryptionKeyID = conf.DecryptionKeyID ∧
    (NewKeyshareCore conf).decryptionKeys conf.DecryptionKeyID = some conf.DecryptionKey ∧
    (NewKeyshareCore conf).jwtPrivateKey = conf.JWTPrivateKey ∧
    (NewKeyshareCore conf).jwtPrivateKeyID = conf.JWTPrivateKeyID ∧
    (NewKeyshareCore conf).storage = conf.Storage := by
  refine ⟨rfl, rfl, rfl, rfl, ?_, rfl, rfl, rfl⟩
  simp [NewKeyshareCore, setDecryptionKey, setJWTPrivateKey]

/-- **C1.** For every verify-pin request for a registered user whose
pincheck reservation returns (so the store did not fail) and whose log
bookkeeping succeeds, the handler result follows the spec's case split:
reservation refused gives status `error` with the wait time; `InvalidPin`
with remaining tries nonzero gives `failure` with the tries; `InvalidPin`
with zero tries gives `error` with the wait time; and a correct PIN gives
`success` with the issued JWT after calling `ClearPincheck` and `SetSeen`. -/
theorem C1_verifyPin_case_split (env : VerifyEnv)
    (hres : env.reserveErr = none)
    (hlog : ∀ k, env.addLogErr k = none) :
    (env.allowed = false →
      handleVerifyPin env = .ok ⟨"error", toString env.wait⟩) ∧
    (env.allowed = true → env.pinErr = some .invalidPin → env.tries ≠ 0 →
      handleVerifyPin env = .ok ⟨"failure", toString env.tries⟩) ∧
    (env.allowed = true → env.pinErr = some .invalidPin → env.tries = 0 →
      handleVerifyPin env = .ok ⟨"error", toString env.wait⟩) ∧
    (env.allowed = true → env.pinErr = none →
      handleVerifyPin env = .ok ⟨"success", env.jwt⟩ ∧
      Event.clearPincheck ∈ (doVerifyPin env).2.2 ∧
      Event.setSeen ∈ (doVerifyPin env).2.2) := by
  refine ⟨?_, ?_, ?_, ?_⟩
  · intro ha
    simp [handleVerifyPin, doVerifyPin, hres, ha, hlog .pinCheckRefused]
  · intro ha hp ht
    simp [handleVerifyPin, doVerifyPin, hres, ha, hp, hlog .pinCheckFailed, ht]
  · intro ha hp ht
    simp [handleVerifyPin, doVerifyPin, hres, ha, hp, hlog .pinCheckFailed,
      hlog .pinCheckBlocked, ht]
  · intro ha hp
    refine ⟨?_, ?_, ?_⟩ <;>
      simp [handleVerifyPin, doVerifyPin, hres, ha, hp, hlog .pinCheckSuccess]

/-- Witness for C1: concrete success-path environment. -/
theorem C1_verifyPin_case_split_witness :
    handleVerifyPin envC1 = .ok ⟨"success", "jwtA"⟩ ∧
    Event.clearPincheck ∈ (doVerifyPin envC1).2.2 ∧
    Event.setSeen ∈ (doVerifyPin envC1).2.2 :=
  (C1_verifyPin_case_split envC1 rfl (fun _ => rfl)).2.2.2 rfl rfl

/-- **C2.** For every getResponse request whose body parses to a challenge:
with invalid authorization the handler returns an `InvalidRequest` error
without reading the session cache, and its response does not depend on the
session cache at all; with valid authorization but no cache entry it
returns 400 `InvalidRequest` "Missing previous call to getCommitments"; and
with valid authorization, a cache entry and successful logging it calls
`GenerateResponse` with the cached commit and key ids. -/
theorem C2_getResponse_auth_then_cache (env : ResponseEnv) :
    (env.hasValidAuthorization = false →
      handleResponse env = (.err .invalidRequest "Invalid authorization", []) ∧
      Event.readSessionCache ∉ (handleResponse env).2 ∧
      ∀ σ : String → Option SessionData,
        handleResponse { env with sessions := σ } = handleResponse env) ∧
    (env.hasValidAuthorization = true → env.sessions env.username = none →
      handleResponse env =
        (.err .invalidRequest "Missing previous call to getCommitments",
          [.readSessionCache]) ∧
      ErrorKind.invalidRequest.statusCode = 400) ∧
    (env.hasValidAuthorization = true →
      ∀ sd, env.sessions env.username = some sd → env.addLogErr = none →
        Event.generateResponse sd.lastCommitID sd.lastKeyID ∈ (handleResponse env).2) := by
  refine ⟨?_, ?_, ?_⟩
  · intro ha
    refine ⟨?_, ?_, ?_⟩
    · simp [handleResponse, ha]
    · simp [handleResponse, ha]
    · intro σ
      simp [handleResponse, ha]
  · intro ha hs
    exact ⟨by simp [handleResponse, ha, hs], rfl⟩
  · intro ha sd hs hlog
    cases hr : env.respErr with
    | none => simp [handleResponse, ha, hs, doGenerateResponses, hlog, hr]
    | some e =>
        cases e <;> simp [handleResponse, ha, hs, doGenerateResponses, hlog, hr]

/-- Witness for C2: concrete environment with a cached session entry. -/
theorem C2_getResponse_auth_then_cache_witness :
    Event.generateResponse 5 ⟨"irma-demo.MijnOverheid", 2⟩ ∈ (handleResponse envC2).2 :=
  (C2_getResponse_auth_then_cache envC2).2.2 rfl
    ⟨⟨"irma-demo.MijnOverheid", 2⟩, 5, 100⟩ rfl rfl

theorem buildCommitmentMap_not_mem (ks : List PublicKeyIdentifier) (cs : List Nat)
    (m : String → Option Nat) (s : String)
    (hs : s ∉ ks.map PublicKeyIdentifier.marshalText) :
    buildCommitmentMap ks cs m s = m s := by
  induction ks generalizing cs m with
  | nil => rfl
  | cons k t ih =>
    cases cs with
    | nil => rfl
    | cons c ct =>
      simp only [List.map_cons, List.mem_cons, not_or] at hs
      rw [buildCommitmentMap, ih ct _ hs.2]
      simp [hs.1]

theorem buildCommitmentMap_get (ks : List PublicKeyIdentifier) (cs : List Nat)
    (m : String → Option Nat)
    (hnd : (ks.map PublicKeyIdentifier.marshalText).Nodup) :
    ∀ i (h : i < ks.length) (h2 : i < cs.length),
      buildCommitmentMap ks cs m ((ks.get ⟨i, h⟩).marshalText) = some (cs.get ⟨i, h2⟩) := by
  induction ks generalizing cs m with
  | nil => intro i h _; exact absurd h (by simp)
  | cons k t ih =>
    intro i h h2
    cases cs with
    | nil => exact absurd h2 (by simp)
    | cons c ct =>
      simp only [List.map_cons, List.nodup_cons] at hnd
      cases i with
      | zero =>
        show buildCommitmentMap t ct (fun s => if s = k.marshalText then some c else m s)
            k.marshalText = some c
        rw [buildCommitmentMap_not_mem t ct _ _ hnd.1]
        simp
      | succ n =>
        exact ih ct _ hnd.2 n (by simpa using h) (by simpa using h2)

/-- **C3.** For every getCommitments request whose body parses to a key
list: an empty list yields a 400 `InvalidRequest` error without invoking
the Core and without touching the session cache; and every successful call
overwrites the caller's session cache entry with the fresh commit id, the
first requested key and expiry now+10s, while the response maps each
requested key's string form to its commitment (requested keys having
distinct string forms, as key identifiers are distinct in practice). -/
theorem C3_getCommitments_cache_and_map (env : CommitmentsEnv) :
    (env.keys = [] →
      handleCommitments env = (.err .invalidRequest "No key specified", env.sessions, []) ∧
      Event.generateCommitments ∉ (handleCommitments env).2.2 ∧
      ErrorKind.invalidRequest.statusCode = 400) ∧
    (env.coreErr = none → env.keys ≠ [] →
      env.commitments.length = env.keys.length →
      (env.keys.map PublicKeyIdentifier.marshalText).Nodup →
      (handleCommitments env).1 =
        .ok (buildCommitmentMap env.keys env.commitments (fun _ => none)) ∧
      (handleCommitments env).2.1 env.username =
        some ⟨env.keys.headD default, env.commitID, env.now + 10⟩ ∧
      (∀ u, u ≠ env.username → (handleCommitments env).2.1 u = env.sessions u) ∧
      (∀ i (h : i < env.keys.length) (h2 : i < env.commitments.length),
        buildCommitmentMap env.keys env.commitments (fun _ => none)
            ((env.keys.get ⟨i, h⟩).marshalText) =
          some (env.commitments.get ⟨i, h2⟩))) := by
  constructor
  · intro hk
    refine ⟨?_, ?_, rfl⟩ <;> simp [handleCommitments, hk]
  · intro hc hk _ hnd
    have hk0 : ¬env.keys.length = 0 := by
      cases hkk : env.keys with
      | nil => exact absurd hkk hk
      | cons a t => simp [hkk]
    refine ⟨?_, ?_, ?_, ?_⟩
    · simp [handleCommitments, generateCommitments, hc, hk0]
    · simp [handleCommitments, generateCommitments, hc, hk0]
    · intro u hu
      simp [handleCommitments, generateCommitments, hc, hk0, hu]
    · intro i h h2
      exact buildCommitmentMap_get env.keys env.commitments _ hnd i h h2

/-- Witness for C3: two concrete keys; the cache entry records the first
key, the fresh commit id and expiry now+10, another user's entry is
untouched, and both keys map to their commitments under their string
forms. -/
theorem C3_getCommitments_cache_and_map_witness :
    (handleCommitments envC3).1 =
      .ok (buildCommitmentMap envC3.keys envC3.commitments (fun _ => none)) ∧
    (handleCommitments envC3).2.1 "alice" =
      some ⟨⟨"irma-demo.MijnOverheid", 2⟩, 99, 60⟩ ∧
    (handleCommitments envC3).2.1 "bob" = envC3.sessions "bob" ∧
    buildCommitmentMap envC3.keys envC3.commitments (fun _ => none)
        "irma-demo.MijnOverheid-2" = some 11 ∧
    buildCommitmentMap envC3.keys envC3.commitments (fun _ => none)
        "pbdf.pbdf-1" = some 12 := by
  have h := (C3_getCommitments_cache_and_map envC3).2 rfl (by decide) (by decide) (by decide)
  refine ⟨h.1, h.2.1, h.2.2.1 "bob" (by decide), ?_, ?_⟩
  · exact h.2.2.2 0 (by decide) (by decide)
  · exact h.2.2.2 1 (by decide) (by decide)

theorem cryptoAfterReservation_cons (rest : List Event) :
    cryptoAfterReservation (Event.reservePincheck :: rest) := by
  intro i hi
  match i with
  | ⟨0, h⟩ => simp [List.get, isCrypto] at hi
  | ⟨n + 1, h⟩ => exact ⟨⟨0, Nat.succ_pos _⟩, Nat.succ_pos _, rfl⟩

theorem doVerifyPin_trace_head (env : VerifyEnv) :
    ∃ rest, (doVerifyPin env).2.2 = Event.reservePincheck :: rest := by
  unfold doVerifyPin
  repeat' split
  all_goals exact ⟨_, rfl⟩

theorem doUpdatePin_trace_head (env : UpdateEnv) :
    ∃ rest, (doUpdatePin env).2.2 = Event.reservePincheck :: rest := by
  unfold doUpdatePin
  repeat' split
  all_goals exact ⟨_, rfl⟩

/-- **C4.** In both pin flows the pincheck reservation precedes every Core
cryptographic operation in the call trace; a refused reservation yields
status `error` with the wait interval and no crypto call at all; in
change-pin a wrong old PIN consumes the reserved slot, returning `failure`
with the remaining tries or `error` with the wait when tries is zero; and a
successful change-pin calls `ClearPincheck` and then `UpdateUser` with the
new blob. -/
theorem C4_reservation_gates_crypto (venv : VerifyEnv) (uenv : UpdateEnv) :
    cryptoAfterReservation (doVerifyPin venv).2.2 ∧
    cryptoAfterReservation (doUpdatePin uenv).2.2 ∧
    (venv.reserveErr = none → venv.allowed = false →
      venv.addLogErr .pinCheckRefused = none →
      handleVerifyPin venv = .ok ⟨"error", toString venv.wait⟩ ∧
      ∀ e ∈ (doVerifyPin venv).2.2, isCrypto e = false) ∧
    (uenv.reserveErr = none → uenv.allowed = false →
      handleChangePin uenv = .ok ⟨"error", toString uenv.wait⟩ ∧
      ∀ e ∈ (doUpdatePin uenv).2.2, isCrypto e = false) ∧
    (uenv.reserveErr = none → uenv.allowed = true →
      uenv.changeErr = some .invalidPin → uenv.tries ≠ 0 →
      handleChangePin uenv = .ok ⟨"failure", toString uenv.tries⟩) ∧
    (uenv.reserveErr = none → uenv.allowed = true →
      uenv.changeErr = some .invalidPin → uenv.tries = 0 →
      handleChangePin uenv = .ok ⟨"error", toString uenv.wait⟩) ∧
    (uenv.reserveErr = none → uenv.allowed = true → uenv.changeErr = none →
      (doUpdatePin uenv).2.2 =
        [.reservePincheck, .changePin, .clearPincheck, .updateUser uenv.newBlob]) := by
  refine ⟨?_, ?_, ?_, ?_, ?_, ?_, ?_⟩
  · obtain ⟨rest, h⟩ := doVerifyPin_trace_head venv
    rw [h]; exact cryptoAfterReservation_cons rest
  · obtain ⟨rest, h⟩ := doUpdatePin_trace_head uenv
    rw [h]; exact cryptoAfterReservation_cons rest
  · intro hres ha hlog
    constructor
    · simp [handleVerifyPin, doVerifyPin, hres, ha, hlog]
    · intro e he
      simp [doVerifyPin, hres, ha, hlog] at he
      rcases he with rfl | rfl <;> rfl
  · intro hres ha
    constructor
    · simp [handleChangePin, doUpdatePin, hres, ha]
    · intro e he
      simp [doUpdatePin, hres, ha] at he
      subst he; rfl
  · intro hres ha hch ht
    simp [handleChangePin, doUpdatePin, hres, ha, hch, ht]
  · intro hres ha hch ht
    simp [handleChangePin, doUpdatePin, hres, ha, hch, ht]
  · intro hres ha hch
    cases hu : uenv.updateErr <;> simp [doUpdatePin, hres, ha, hch, hu]

/-- Witness for C4: a refused verify-pin reservation and a successful pin
change at concrete environments. -/
theorem C4_reservation_gates_crypto_witness :
    handleVerifyPin envC4verify = .ok ⟨"error", "60"⟩ ∧
    isCrypto (.addLog .pinCheckRefused) = false ∧
    (doUpdatePin envC4change).2.2 =
      [.reservePincheck, .changePin, .clearPincheck, .updateUser 7] :=
  have h := (C4_reservation_gates_crypto envC4verify envC4change).2.2.1 rfl rfl rfl
  ⟨h.1, h.2 (.addLog .pinCheckRefused) (by decide),
    (C4_reservation_gates_crypto envC4verify envC4change).2.2.2.2.2.2 rfl rfl rfl⟩

/-- **C5 (failing-input evaluation).** Contrary to the spec's propagation
policy, two store/crypto failures are swallowed instead of surfacing as
`Internal` errors: `doVerifyPin` returns `keysharePinStatus{}, nil` when
`ReservePincheck` fails (part_001:366), and `doUpdatePin` returns
`keysharePinStatus{}, nil` on a non-pin `ChangePin` error (part_001:478),
so in both cases the client receives HTTP 200 with an empty status object.
The sibling paths show the intent: `doUpdatePin` returns the
`ReservePincheck` error (part_001:462) and `doVerifyPin` returns the
non-pin `ValidatePin` error (part_001:381), both reaching `WriteError`
with `Internal`. -/
theorem C5_store_errors_swallowed :
    handleVerifyPin envC5verify = .ok ⟨"", ""⟩ ∧
    handleChangePin envC5change = .ok ⟨"", ""⟩ ∧
    handleChangePin { envC5change with reserveErr := some (.other "db failure"), changeErr := none } =
      .err .internal "db failure" ∧
    handleVerifyPin { envC5verify with reserveErr := none, pinErr := some (.other "crypto failure") } =
      .err .internal "crypto failure" := by
  refine ⟨rfl, rfl, rfl, rfl⟩

/-- **C6 (counterexample).** The claim includes `AddLog` among the
best-effort calls whose failure never changes the client-visible response.
It does change it: `envC6ok` and `envC6bad` differ only in the outcome of
the `AddLog` calls, yet one request answers `{status "error", message
"60"}` (HTTP 200) and the other an `Internal` error (HTTP 500). -/
theorem C6_addLog_changes_response :
    handleVerifyPin envC6ok ≠ handleVerifyPin envC6bad ∧
    handleVerifyPin envC6ok = .ok ⟨"error", "60"⟩ ∧
    handleVerifyPin envC6bad = .err .internal "db failure" := by
  refine ⟨?_, rfl, rfl⟩
  intro h
  exact absurd h (by decide)

/-- **C6 (amended).** Failures of the best-effort bookkeeping calls
`SetSeen` and `ClearPincheck`-after-success are only logged and never
change the client-visible response: in the verify-pin, change-pin and
getResponse flows the response is the same whatever those two calls
return. (`AddLog` failures, by contrast, are returned and surface as
`Internal` errors.) -/
theorem C6_bookkeeping_invariance (venv : VerifyEnv) (uenv : UpdateEnv)
    (renv : ResponseEnv) (x y : Option GoError) :
    handleVerifyPin { venv with clearErr := x, seenErr := y } = handleVerifyPin venv ∧
    handleChangePin { uenv with clearErr := x } = handleChangePin uenv ∧
    (handleResponse { renv with seenErr := y }).1 = (handleResponse renv).1 := by
  refine ⟨rfl, rfl, rfl⟩

theorem b64char_cases : ∀ i : Fin 64,
    b64char i.val = '+' ∨ b64char i.val = '/' ∨ isBase62 (b64char i.val) = true := by
  decide

theorem b64char_base62 (i : Nat) (h : i < 64)
    (h1 : b64char i ≠ '+') (h2 : b64char i ≠ '/') : isBase62 (b64char i) = true := by
  rcases b64char_cases ⟨i, h⟩ with hc | hc | hc
  · exact absurd hc h1
  · exact absurd hc h2
  · exact hc

/-- **C9.** `generateUsername` base64-encodes its 8 random bytes into 12
characters and removes every plus, slash and padding character, so the
resulting string consists only of base62 characters and has length at most
11. -/
theorem C9_generateUsername_base62 (bts : List Nat) (hlen : bts.length = 8)
    (hb : ∀ b ∈ bts, b < 256) :
    (base64StdEncode bts).length = 12 ∧
    (∀ c ∈ (generateUsername bts).data, isBase62 c = true) ∧
    (generateUsername bts).length ≤ 11 := by
  obtain ⟨b0, b1, b2, b3, b4, b5, b6, b7, rfl⟩ :
      ∃ b0 b1 b2 b3 b4 b5 b6 b7, bts = [b0, b1, b2, b3, b4, b5, b6, b7] := by
    rcases bts with _ | ⟨b0, bts⟩
    · simp at hlen
    rcases bts with _ | ⟨b1, bts⟩
    · simp at hlen
    rcases bts with _ | ⟨b2, bts⟩
    · simp at hlen
    rcases bts with _ | ⟨b3, bts⟩
    · simp at hlen
    rcases bts with _ | ⟨b4, bts⟩
    · simp at hlen
    rcases bts with _ | ⟨b5, bts⟩
    · simp at hlen
    rcases bts with _ | ⟨b6, bts⟩
    · simp at hlen
    rcases bts with _ | ⟨b7, bts⟩
    · simp at hlen
    rcases bts with _ | ⟨b8, bts⟩
    · exact ⟨b0, b1, b2, b3, b4, b5, b6, b7, rfl⟩
    · simp at hlen
  have h0 : b0 < 256 := hb b0 (by simp)
  have h1 : b1 < 256 := hb b1 (by simp)
  have h2 : b2 < 256 := hb b2 (by simp)
  have h3 : b3 < 256 := hb b3 (by simp)
  have h4 : b4 < 256 := hb b4 (by simp)
  have h5 : b5 < 256 := hb b5 (by simp)
  have h6 : b6 < 256 := hb b6 (by simp)
  have h7 : b7 < 256 := hb b7 (by simp)
  have e12 : base64StdEncode [b0, b1, b2, b3, b4, b5, b6, b7] =
      [b64char (b0 / 4), b64char (b0 % 4 * 16 + b1 / 16),
        b64char (b1 % 16 * 4 + b2 / 64), b64char (b2 % 64),
        b64char (b3 / 4), b64char (b3 % 4 * 16 + b4 / 16),
        b64char (b4 % 16 * 4 + b5 / 64), b64char (b5 % 64),
        b64char (b6 / 4), b64char (b6 % 4 * 16 + b7 / 16),
        b64char (b7 % 16 * 4)] ++ ['='] := rfl
  refine ⟨by rw [e12]; rfl, ?_, ?_⟩
  · intro c hc
    have hc2 : c ∈ List.filter (fun c => c ≠ '+' && c ≠ '/' && c ≠ '=')
        (base64StdEncode [b0, b1, b2, b3, b4, b5, b6, b7]) := hc
    rw [List.mem_filter] at hc2
    obtain ⟨hmem, hp⟩ := hc2
    simp only [Bool.and_eq_true, decide_eq_true_eq] at hp
    rw [e12] at hmem
    simp only [List.mem_append, List.mem_cons, List.not_mem_nil, or_false] at hmem
    rcases hmem with (rfl | rfl | rfl | rfl | rfl | rfl | rfl | rfl | rfl | rfl | rfl) | rfl
    · exact b64char_base62 _ (by omega) hp.1.1 hp.1.2
    · exact b64char_base62 _ (by omega) hp.1.1 hp.1.2
    · exact b64char_base62 _ (by omega) hp.1.1 hp.1.2
    · exact b64char_base62 _ (by omega) hp.1.1 hp.1.2
    · exact b64char_base62 _ (by omega) hp.1.1 hp.1.2
    · exact b64char_base62 _ (by omega) hp.1.1 hp.1.2
    · exact b64char_base62 _ (by omega) hp.1.1 hp.1.2
    · exact b64char_base62 _ (by omega) hp.1.1 hp.1.2
    · exact b64char_base62 _ (by omega) hp.1.1 hp.1.2
    · exact b64char_base62 _ (by omega) hp.1.1 hp.1.2
    · exact b64char_base62 _ (by omega) hp.1.1 hp.1.2
    · exact absurd rfl hp.2
  · show (List.filter (fun c => c ≠ '+' && c ≠ '/' && c ≠ '=')
        (base64StdEncode [b0, b1, b2, b3, b4, b5, b6, b7])).length ≤ 11
    rw [e12, List.filter_append]
    have hpad : List.filter (fun c => c ≠ '+' && c ≠ '/' && c ≠ '=') ['='] = [] := rfl
    rw [hpad, List.append_nil]
    exact le_trans (List.length_filter_le _ _) (by rfl)

/-- Witness for C9: the all-zero byte string encodes to twelve characters
and yields the eleven-character base62 username "AAAAAAAAAAA". -/
theorem C9_generateUsername_base62_witness :
    (base64StdEncode [0, 0, 0, 0, 0, 0, 0, 0]).length = 12 ∧
    isBase62 'A' = true ∧
    (generateUsername [0, 0, 0, 0, 0, 0, 0, 0]).length ≤ 11 :=
  have h := C9_generateUsername_base62 [0, 0, 0, 0, 0, 0, 0, 0] (by decide) (by decide)
  ⟨h.1, h.2.1 'A' (by decide), h.2.2⟩

/-- **C10.** The 10-second session-cache expiry is enforced only by the
periodic sweeper: `handleResponse` never compares the entry's expiry with
the current time, so for a cached entry that is already expired at `now`
(which `clearSessions` run at `now` would delete) a getResponse request
arriving before the sweep still uses the cached commit and key ids and
succeeds; indeed the handler's behaviour does not depend on the expiry
field of the cached entry at all. -/
theorem C10_expiry_only_swept (env : ResponseEnv) (sd : SessionData) (now : Nat)
    (hsd : env.sessions env.username = some sd) (hexp : sd.expiry < now)
    (ha : env.hasValidAuthorization = true)
    (hlog : env.addLogErr = none) (hresp : env.respErr = none) :
    clearSessions now env.sessions env.username = none ∧
    (handleResponse env).1 = .ok env.respString ∧
    Event.generateResponse sd.lastCommitID sd.lastKeyID ∈ (handleResponse env).2 ∧
    (∀ sd2 : SessionData, sd2.lastCommitID = sd.lastCommitID →
      sd2.lastKeyID = sd.lastKeyID →
      handleResponse { env with sessions :=
          fun u => if u = env.username then some sd2 else env.sessions u } =
        handleResponse env) := by
  refine ⟨?_, ?_, ?_, ?_⟩
  · simp [clearSessions, hsd, hexp]
  · simp [handleResponse, ha, hsd, doGenerateResponses, hlog, hresp]
  · simp [handleResponse, ha, hsd, doGenerateResponses, hlog, hresp]
  · intro sd2 hcid hkid
    simp [handleResponse, ha, hsd, doGenerateResponses, hlog, hresp, hcid, hkid]

/-- Witness for C10: a concrete cached entry with expiry 20 observed at
time 30: the sweeper would delete it, yet the handler still answers with
the generated response using commit id 8. -/
theorem C10_expiry_only_swept_witness :
    clearSessions 30 envC10.sessions "alice" = none ∧
    (handleResponse envC10).1 = .ok "456" ∧
    Event.generateResponse 8 ⟨"pbdf.pbdf", 3⟩ ∈ (handleResponse envC10).2 ∧
    handleResponse { envC10 with sessions :=
        fun u => if u = "alice" then some ⟨⟨"pbdf.pbdf", 3⟩, 8, 999⟩ else envC10.sessions u } =
      handleResponse envC10 :=
  have h := C10_expiry_only_swept envC10 ⟨⟨"pbdf.pbdf", 3⟩, 8, 20⟩ 30 rfl (by decide) rfl rfl rfl
  ⟨h.1, h.2.1, h.2.2.1, h.2.2.2 ⟨⟨"pbdf.pbdf", 3⟩, 8, 999⟩ rfl rfl⟩
